import Mathlib

/-!
Verification of the enrollment / capacity / waitlist / conflict subsystem of the
extracurricular-ERP repository.

The development shallowly embeds the enhanced enrollment controller
(`registerStudent`, `cancelEnrollment`, `addToWaitlist`, `promoteFromWaitlist`)
together with the relevant relational schema (tables `activities`,
`activity_schedules`, `activity_enrollments`, `activity_waitlist`,
`enrollment_conflicts`).  The database is a record of lists of rows; each SQL
statement of the controller becomes a list computation; a MySQL transaction
becomes an atomic state transition whose error paths return the original state
(the controller wraps every handler in begin/commit with rollback on error).
The base schema's `UNIQUE KEY unique_enrollment (student_id, activity_id)` and
`UNIQUE KEY unique_waitlist (student_id, activity_id)` are modelled: an INSERT
that would violate them raises the driver error that the controller's catch
block turns into a rollback plus a generic 500 response.

Timestamps and TIME-of-day values are modelled as natural numbers (minutes for
times of day), DECIMAL fee amounts as naturals, and free-text columns as
strings.  The audit_log table is write-only and read by no decision, so it is
not part of the state.
-/

namespace ErpEnroll

/-- Enrollment statuses occurring in the repository.  The schema column is a
VARCHAR; these are the literals the controllers compare against or insert. -/
inductive EnrollStatus where
  | active
  | enrolled
  | approved
  | rejected
  | withdrawn
  | completed
  | pending
  deriving DecidableEq

/-- Activity statuses (ENUM in the enhanced schema). -/
inductive ActStatus where
  | active
  | inactive
  | cancelled
  deriving DecidableEq

/-- Waitlist entry statuses (ENUM in the enhanced schema). -/
inductive WaitStatus where
  | waiting
  | notified
  | promoted
  | expired
  | cancelled
  deriving DecidableEq

/-- Days of the week (ENUM `day_of_week` of `activity_schedules`). -/
inductive Day where
  | monday
  | tuesday
  | wednesday
  | thursday
  | friday
  | saturday
  | sunday
  deriving DecidableEq

/-- Conflict types of the `enrollment_conflicts` log. -/
inductive ConflictType where
  | time_overlap
  | venue_conflict
  | age_restriction
  | grade_restriction
  | quota_full
  deriving DecidableEq

/-- A row of the `activities` table (the columns read by the enrollment
controller).  `quota` is NOT NULL in the enhanced schema; `max_students` and
the grade bounds are nullable. -/
structure Activity where
  id : Nat
  status : ActStatus
  quota : Nat
  max_students : Option Nat
  min_grade : Option Int
  max_grade : Option Int
  registration_start : Option Nat
  registration_end : Option Nat
  fee : Option Nat
  deriving DecidableEq

/-- A row of the `activity_schedules` table. -/
structure Schedule where
  id : Nat
  activity_id : Nat
  venue_id : Option Nat
  day_of_week : Day
  start_time : Nat
  end_time : Nat
  is_active : Bool
  deriving DecidableEq

/-- A row of the `activity_enrollments` table. -/
structure Enrollment where
  id : Nat
  student_id : Nat
  activity_id : Nat
  grade_level : Option Int
  status : EnrollStatus
  enrolled_by : Option Nat
  notes : Option String
  payment_amount : Nat
  cancelled_at : Option Nat
  cancellation_reason : Option String
  deriving DecidableEq

/-- A row of the `activity_waitlist` table. -/
structure WaitlistEntry where
  id : Nat
  student_id : Nat
  activity_id : Nat
  grade_level : Option Int
  priority : Int
  position : Nat
  status : WaitStatus
  promoted_at : Option Nat
  notes : Option String
  deriving DecidableEq

/-- A row of the `enrollment_conflicts` log table. -/
structure ConflictRecord where
  student_id : Nat
  attempted_activity_id : Nat
  conflicting_activity_id : Option Nat
  conflicting_schedule_id : Option Nat
  conflict_type : ConflictType
  deriving DecidableEq

/-- The database state the enrollment subsystem reads and writes.  The two
counters model MySQL AUTO_INCREMENT for the tables the controller inserts
into. -/
structure DBState where
  activities : List Activity
  schedules : List Schedule
  enrollments : List Enrollment
  waitlist : List WaitlistEntry
  conflicts : List ConflictRecord
  nextEnrollId : Nat
  nextWaitId : Nat
  deriving DecidableEq

/-! ## Embedded SQL statements -/

/-- Step 1 of `registerStudent`: `SELECT a.* FROM activities a WHERE a.id = ?
AND a.status = 'active'`. -/
def findActivity (st : DBState) (aid : Nat) : Option Activity :=
  st.activities.find? (fun a => a.id == aid && a.status == ActStatus.active)

/-- The `current_enrollments` aggregate of step 1: `COUNT(ae.id)` over
`activity_enrollments ae` with `ae.activity_id = a.id AND ae.status =
'active'`. -/
def activeCount (st : DBState) (aid : Nat) : Nat :=
  (st.enrollments.filter
    (fun e => e.activity_id == aid && e.status == EnrollStatus.active)).length

/-- Step 2 guard: `activity.registration_start && new
Date(activity.registration_start) > now` (NULL is falsy in JS). -/
def regNotStarted (a : Activity) (now : Nat) : Bool :=
  match a.registration_start with
  | some t => decide (now < t)
  | none => false

/-- Step 2 guard: `activity.registration_end && new
Date(activity.registration_end) < now`. -/
def regEnded (a : Activity) (now : Nat) : Bool :=
  match a.registration_end with
  | some t => decide (t < now)
  | none => false

/-- Step 3: `SELECT id FROM activity_enrollments WHERE student_id = ? AND
activity_id = ? AND status IN ('active', 'enrolled')` is non-empty. -/
def hasActiveOrEnrolled (st : DBState) (sid aid : Nat) : Bool :=
  st.enrollments.any (fun e =>
    e.student_id == sid && e.activity_id == aid &&
    (e.status == EnrollStatus.active || e.status == EnrollStatus.enrolled))

/-- Step 5 guard: `activity.min_grade && grade_level < activity.min_grade`
(NULL and 0 are falsy in JS). -/
def gradeBelowMin (a : Activity) (g : Int) : Bool :=
  match a.min_grade with
  | some m => if m == 0 then false else decide (g < m)
  | none => false

/-- Step 5 guard: `activity.max_grade && grade_level > activity.max_grade`. -/
def gradeAboveMax (a : Activity) (g : Int) : Bool :=
  match a.max_grade with
  | some m => if m == 0 then false else decide (m < g)
  | none => false

/-- The three-case interval disjunction of the conflict queries, with
`(sA, eA)` the target schedule (`target_sch`) and `(sB, eB)` the other
schedule (`asch`):
`(target_sch.start_time >= asch.start_time AND target_sch.start_time <
asch.end_time) OR (target_sch.end_time > asch.start_time AND
target_sch.end_time <= asch.end_time) OR (target_sch.start_time <=
asch.start_time AND target_sch.end_time >= asch.end_time)`. -/
def overlap3 (sA eA sB eB : Nat) : Bool :=
  (decide (sB ≤ sA) && decide (sA < eB)) ||
  (decide (sB < eA) && decide (eA ≤ eB)) ||
  (decide (sA ≤ sB) && decide (eB ≤ eA))

/-- Modelled from the spec: the half-open interval overlap rule the
specification prescribes for the Conflict Checker, `overlap = start_A < end_B
AND start_B < end_A`.  Kept separate from `overlap3` (the disjunction the code
uses) so the two can be compared. -/
def overlapSpec (sA eA sB eB : Nat) : Bool :=
  decide (sA < eB) && decide (sB < eA)

/-- The subquery `SELECT id FROM activity_schedules WHERE activity_id = ? AND
is_active = TRUE` of the time-conflict query (the target activity's active
schedule ids). -/
def targetScheduleIds (st : DBState) (aid : Nat) : List Nat :=
  (st.schedules.filter (fun s => s.activity_id == aid && s.is_active)).map
    (fun s => s.id)

/-- The `EXISTS (SELECT 1 FROM activity_schedules target_sch ...)` clause of
the time-conflict query: some active schedule of the target activity shares
`asch`'s day of week and satisfies the three-case overlap disjunction. -/
def existsOverlappingTarget (st : DBState) (aid : Nat) (asch : Schedule) : Bool :=
  st.schedules.any (fun ts =>
    ts.activity_id == aid && ts.is_active &&
    ts.day_of_week == asch.day_of_week &&
    overlap3 ts.start_time ts.end_time asch.start_time asch.end_time)

/-- Step 6 of `registerStudent`: the time-conflict query.  It joins the
student's active enrollments `ae` to their activities `a` (`a.status =
'active'`) and those activities' active schedules `asch`, keeps only `asch`
whose id is among the target activity's active schedule ids, and requires an
overlapping active target schedule to exist.  Each surviving row yields the
pair (conflicting activity id, conflicting schedule id). -/
def timeConflicts (st : DBState) (sid aid : Nat) : List (Nat × Nat) :=
  (st.enrollments.filter (fun ae =>
      ae.student_id == sid && ae.status == EnrollStatus.active)).flatMap
    (fun ae =>
      (st.activities.filter (fun a =>
          a.id == ae.activity_id && a.status == ActStatus.active)).flatMap
        (fun a =>
          (st.schedules.filter (fun asch =>
              asch.activity_id == a.id && asch.is_active &&
              (targetScheduleIds st aid).contains asch.id &&
              existsOverlappingTarget st aid asch)).map
            (fun asch => (a.id, asch.id))))

/-- Helper `logEnrollmentConflict`: `INSERT INTO enrollment_conflicts ...`.
The controller issues it outside the explicit transaction (after a rollback or
after the commit), so in every path where it runs it autocommits and
persists. -/
def logEnrollmentConflict (st : DBState) (sid aid : Nat)
    (conflicting : Option Nat) (ty : ConflictType)
    (schedule : Option Nat) : DBState :=
  { st with conflicts :=
      st.conflicts ++ [⟨sid, aid, conflicting, schedule, ty⟩] }

/-- The key `UNIQUE KEY unique_enrollment (student_id, activity_id)` of
`activity_enrollments`: true when an INSERT of this pair would be refused by
MySQL (a row for the pair already exists, in any status). -/
def enrollmentPairExists (st : DBState) (sid aid : Nat) : Bool :=
  st.enrollments.any (fun e => e.student_id == sid && e.activity_id == aid)

/-- The key `UNIQUE KEY unique_waitlist (student_id, activity_id)` of
`activity_waitlist`. -/
def waitlistPairExists (st : DBState) (sid aid : Nat) : Bool :=
  st.waitlist.any (fun w => w.student_id == sid && w.activity_id == aid)

/-- Embeds `SELECT COALESCE(MAX(position), 0) + 1 FROM activity_waitlist WHERE
activity_id = ? AND status = 'waiting'`. -/
def nextWaitlistPosition (st : DBState) (aid : Nat) : Nat :=
  (((st.waitlist.filter (fun w =>
      w.activity_id == aid && w.status == WaitStatus.waiting)).map
    (fun w => w.position)).foldl max 0) + 1

/-- Helper `addToWaitlist`: computes the next position and inserts a
status-`waiting` row.  `none` models the driver exception raised when the
insert violates `unique_waitlist`. -/
def addToWaitlist (st : DBState) (sid aid : Nat) (g : Option Int)
    (notes : Option String) : Option (Nat × DBState) :=
  if waitlistPairExists st sid aid then none
  else
    let pos := nextWaitlistPosition st aid
    some (pos,
      { st with
        waitlist := st.waitlist ++
          [⟨st.nextWaitId, sid, aid, g, 0, pos, WaitStatus.waiting, none, notes⟩],
        nextWaitId := st.nextWaitId + 1 })

/-- Embeds `activity.fee || 0` of the enrollment INSERT. -/
def feeOf (a : Activity) : Nat :=
  match a.fee with
  | some f => f
  | none => 0

/-- Embeds `parseInt(activity.quota || activity.max_students || 30)`; JS `||` treats
both NULL and 0 as falsy. -/
def quotaOf (a : Activity) : Nat :=
  if a.quota ≠ 0 then a.quota
  else
    match a.max_students with
    | some m => if m ≠ 0 then m else 30
    | none => 30

/-- The request body of `POST /api/enrollments/register`.  A `none` field
models an absent (undefined/null) JSON field. -/
structure RegisterRequest where
  student_id : Option Nat
  activity_id : Option Nat
  grade_level : Option Int
  enrolled_by : Option Nat
  notes : Option String
  deriving DecidableEq

/-- The observable outcome of `registerStudent` (HTTP status plus
discriminating payload). -/
inductive RegisterOutcome where
  /-- HTTP 400: `student_id, activity_id, and grade_level are required`. -/
  | validationError
  /-- HTTP 404: `Activity not found or is not active`. -/
  | activityNotFound
  /-- HTTP 400: `Registration has not started yet`. -/
  | registrationNotStarted
  /-- HTTP 400: `Registration period has ended`. -/
  | registrationEnded
  /-- HTTP 400: `Student is already enrolled in this activity`. -/
  | alreadyEnrolled
  /-- HTTP 400 with `conflict_type: grade_restriction`. -/
  | gradeRestriction
  /-- HTTP 409 with `conflict_type: time_overlap`. -/
  | timeConflict (activity_id schedule_id : Nat)
  /-- HTTP 200 with `waitlisted: true` and the assigned position. -/
  | waitlisted (position : Nat)
  /-- HTTP 201 with the new enrollment row. -/
  | enrolled (enrollment_id : Nat)
  /-- HTTP 500: the catch block after a rolled-back transaction. -/
  | serverError
  deriving DecidableEq

/-- The row inserted by step 9 of `registerStudent`: `INSERT INTO
activity_enrollments (student_id, activity_id, grade_level, status,
enrolled_by, notes, payment_amount) VALUES (?, ?, ?, 'active', ?, ?, ?)`. -/
def directEnrollRow (st : DBState) (sid aid : Nat) (g : Int)
    (req : RegisterRequest) (a : Activity) : Enrollment :=
  ⟨st.nextEnrollId, sid, aid, some g, EnrollStatus.active,
    req.enrolled_by, req.notes, feeOf a, none, none⟩

/-- Handler `POST /api/enrollments/register` (the enhanced enrollment controller's
`registerStudent`): validation, activity lookup, registration window, duplicate
check, grade restriction, time-conflict query, quota gate with waitlist
fallback, and the direct enrollment insert.  Error paths return the original
state (rollback); the conflict log persists where the source issues it. -/
def registerStudent (now : Nat) (req : RegisterRequest) (st : DBState) :
    RegisterOutcome × DBState :=
  match req.student_id, req.activity_id, req.grade_level with
  | some sid, some aid, some g =>
    match findActivity st aid with
    | none => (RegisterOutcome.activityNotFound, st)
    | some a =>
      if regNotStarted a now then (RegisterOutcome.registrationNotStarted, st)
      else if regEnded a now then (RegisterOutcome.registrationEnded, st)
      else if hasActiveOrEnrolled st sid aid then
        (RegisterOutcome.alreadyEnrolled, st)
      else if gradeBelowMin a g then
        (RegisterOutcome.gradeRestriction,
          logEnrollmentConflict st sid aid none ConflictType.grade_restriction none)
      else if gradeAboveMax a g then
        (RegisterOutcome.gradeRestriction,
          logEnrollmentConflict st sid aid none ConflictType.grade_restriction none)
      else
        match timeConflicts st sid aid with
        | (ca, cs) :: _ =>
          (RegisterOutcome.timeConflict ca cs,
            logEnrollmentConflict st sid aid (some ca) ConflictType.time_overlap
              (some cs))
        | [] =>
          if quotaOf a ≤ activeCount st aid then
            match addToWaitlist st sid aid (some g) req.notes with
            | none => (RegisterOutcome.serverError, st)
            | some (pos, st1) =>
              (RegisterOutcome.waitlisted pos,
                logEnrollmentConflict st1 sid aid none ConflictType.quota_full none)
          else
            if enrollmentPairExists st sid aid then
              (RegisterOutcome.serverError, st)
            else
              (RegisterOutcome.enrolled st.nextEnrollId,
                { st with
                  enrollments :=
                    st.enrollments ++ [directEnrollRow st sid aid g req a],
                  nextEnrollId := st.nextEnrollId + 1 })
  | _, _, _ => (RegisterOutcome.validationError, st)

/-! ## Cancellation and waitlist promotion -/

/-- The default for `reason || 'Student requested'`. -/
def defaultCancellationReason : String := "Student requested"

/-- The notes literal of the promotion INSERT. -/
def promotedNotes : String := "Promoted from waitlist"

/-- Embeds `SELECT * FROM activity_enrollments WHERE id = ? AND student_id = ? AND
status = 'active' FOR UPDATE` of `cancelEnrollment`. -/
def findCancelTarget (st : DBState) (eid sid : Nat) : Option Enrollment :=
  st.enrollments.find? (fun e =>
    e.id == eid && e.student_id == sid && e.status == EnrollStatus.active)

/-- Embeds `UPDATE activity_enrollments SET status = 'withdrawn', cancelled_at =
CURRENT_TIMESTAMP, cancellation_reason = ? WHERE id = ?`. -/
def withdrawEnrollment (now : Nat) (reason : Option String) (eid : Nat)
    (st : DBState) : DBState :=
  { st with enrollments := st.enrollments.map (fun e =>
      if e.id == eid then
        { e with
          status := EnrollStatus.withdrawn,
          cancelled_at := some now,
          cancellation_reason := some (reason.getD defaultCancellationReason) }
      else e) }

/-- Embeds `ORDER BY priority DESC, position ASC` as a strict comparison: `w1` sorts
strictly before `w2`. -/
def betterWaitlist (w1 w2 : WaitlistEntry) : Bool :=
  decide (w2.priority < w1.priority) ||
  (w1.priority == w2.priority && decide (w1.position < w2.position))

/-- Scan computing the first row of the promotion query's ordering (ties on
both priority and position keep the earlier row, matching the arbitrary but
fixed order MySQL returns). -/
def selGo : Option WaitlistEntry → List WaitlistEntry → Option WaitlistEntry
  | acc, [] => acc
  | none, x :: xs => selGo (some x) xs
  | some b, x :: xs =>
    if betterWaitlist x b then selGo (some x) xs else selGo (some b) xs

/-- Embeds `SELECT * FROM activity_waitlist WHERE activity_id = ? AND status =
'waiting' ORDER BY priority DESC, position ASC LIMIT 1 FOR UPDATE`. -/
def selectNextWaiting (st : DBState) (aid : Nat) : Option WaitlistEntry :=
  selGo none (st.waitlist.filter (fun w =>
    w.activity_id == aid && w.status == WaitStatus.waiting))

/-- The row inserted when a waitlist entry is promoted: `INSERT INTO
activity_enrollments (student_id, activity_id, grade_level, status, notes)
VALUES (?, ?, ?, 'active', 'Promoted from waitlist')`. -/
def promotedRow (st : DBState) (w : WaitlistEntry) (aid : Nat) : Enrollment :=
  ⟨st.nextEnrollId, w.student_id, aid, w.grade_level, EnrollStatus.active,
    none, some promotedNotes, 0, none, none⟩

/-- Embeds `UPDATE activity_waitlist SET status = 'promoted', promoted_at =
CURRENT_TIMESTAMP WHERE id = ?` applied to one row. -/
def markPromoted (now wid : Nat) (w : WaitlistEntry) : WaitlistEntry :=
  if w.id == wid then
    { w with status := WaitStatus.promoted, promoted_at := some now }
  else w

/-- Helper `promoteFromWaitlist`: selects the next waiting entry, enrolls that
student and marks the entry promoted.  `none` models the driver exception when
the enrollment INSERT violates `unique_enrollment` (the exception propagates
to the caller's catch block); `some (none, st)` is the empty-waitlist no-op;
`some (some sid, st1)` reports the promoted student. -/
def promoteFromWaitlist (now : Nat) (st : DBState) (aid : Nat) :
    Option (Option Nat × DBState) :=
  match selectNextWaiting st aid with
  | none => some (none, st)
  | some w =>
    if enrollmentPairExists st w.student_id aid then none
    else
      some (some w.student_id,
        { st with
          enrollments := st.enrollments ++ [promotedRow st w aid],
          nextEnrollId := st.nextEnrollId + 1,
          waitlist := st.waitlist.map (markPromoted now w.id) })

/-- The observable outcome of `cancelEnrollment`. -/
inductive CancelOutcome where
  /-- HTTP 404: `Active enrollment not found`. -/
  | notFound
  /-- HTTP 200 with `waitlist_promoted` (the promoted student id, if any). -/
  | cancelled (promoted : Option Nat)
  /-- HTTP 500: the catch block after a rolled-back transaction. -/
  | serverError
  deriving DecidableEq

/-- Handler `POST /api/enrollments/cancel` (the enhanced enrollment controller's
`cancelEnrollment`): one transaction that marks the enrollment withdrawn and
then promotes from the waitlist; any error rolls the whole transaction back,
returning the original state. -/
def cancelEnrollment (now : Nat) (eid sid : Nat) (reason : Option String)
    (st : DBState) : CancelOutcome × DBState :=
  match findCancelTarget st eid sid with
  | none => (CancelOutcome.notFound, st)
  | some e =>
    let st1 := withdrawEnrollment now reason e.id st
    match promoteFromWaitlist now st1 e.activity_id with
    | none => (CancelOutcome.serverError, st)
    | some (promoted, st2) => (CancelOutcome.cancelled promoted, st2)

/-! ## Coach status updates (basic enrollment controller) -/

/-- The observable outcome of `updateEnrollmentStatus`. -/
inductive UpdateOutcome where
  | invalidStatus
  | notFound
  | updated
  deriving DecidableEq

/-- The `validStatuses` list of `updateEnrollmentStatus` in the basic enrollment
controller. -/
def validStatuses : List EnrollStatus :=
  [EnrollStatus.active, EnrollStatus.approved, EnrollStatus.rejected,
   EnrollStatus.withdrawn, EnrollStatus.completed]

/-- Handler `PATCH /api/enrollments/:enrollmentId/status` (the basic enrollment
controller's `updateEnrollmentStatus`): sets any valid status on the matching
row, with no transition table. -/
def updateEnrollmentStatus (eid : Nat) (status : EnrollStatus) (st : DBState) :
    UpdateOutcome × DBState :=
  if validStatuses.contains status then
    if st.enrollments.any (fun e => e.id == eid) then
      (UpdateOutcome.updated,
        { st with enrollments := st.enrollments.map (fun e =>
            if e.id == eid then { e with status := status } else e) })
    else (UpdateOutcome.notFound, st)
  else (UpdateOutcome.invalidStatus, st)

/-! ## Reachable states

States reachable from an empty enrollment/waitlist/conflict store (activities
and schedules are arbitrary admin-managed data that the enrollment subsystem
never modifies) through the operations that mutate enrollments and the
waitlist. -/

/-- Reachability of a database state under the enrollment subsystem's
mutating operations. -/
inductive Reachable : DBState → Prop where
  | init (activities : List Activity) (schedules : List Schedule) :
      Reachable ⟨activities, schedules, [], [], [], 1, 1⟩
  | register (now : Nat) (req : RegisterRequest) (st : DBState) :
      Reachable st → Reachable (registerStudent now req st).2
  | cancel (now eid sid : Nat) (reason : Option String) (st : DBState) :
      Reachable st → Reachable (cancelEnrollment now eid sid reason st).2
  | updateStatus (eid : Nat) (status : EnrollStatus) (st : DBState) :
      Reachable st → Reachable (updateEnrollmentStatus eid status st).2

/-! ## The pair-uniqueness invariant -/

/-- Two enrollment rows cover the same (student, activity) pair — the
condition `UNIQUE KEY unique_enrollment (student_id, activity_id)`
excludes. -/
def SamePair (e1 e2 : Enrollment) : Prop :=
  e1.student_id = e2.student_id ∧ e1.activity_id = e2.activity_id

/-- No two rows of the enrollment table cover the same (student, activity)
pair. -/
def PairUnique (l : List Enrollment) : Prop :=
  l.Pairwise (fun e1 e2 => ¬ SamePair e1 e2)

theorem enrollmentPairExists_false_iff {st : DBState} {sid aid : Nat} :
    enrollmentPairExists st sid aid = false ↔
    ∀ e ∈ st.enrollments, ¬(e.student_id = sid ∧ e.activity_id = aid) := by
  simp [enrollmentPairExists, List.any_eq_false, Bool.and_eq_true, beq_iff_eq]

theorem pairUnique_map (f : Enrollment → Enrollment)
    (hf : ∀ e, (f e).student_id = e.student_id ∧ (f e).activity_id = e.activity_id)
    {l : List Enrollment} (h : PairUnique l) : PairUnique (l.map f) := by
  refine List.Pairwise.map f (fun a b hab hp => hab ?_) h
  exact ⟨by rw [← (hf a).1, ← (hf b).1]; exact hp.1,
         by rw [← (hf a).2, ← (hf b).2]; exact hp.2⟩

theorem pairUnique_append {l : List Enrollment} {e : Enrollment}
    (h : PairUnique l) (he : ∀ e' ∈ l, ¬ SamePair e' e) :
    PairUnique (l ++ [e]) := by
  unfold PairUnique at h ⊢
  rw [List.pairwise_append]
  refine ⟨h, List.pairwise_singleton _ _, ?_⟩
  intro a ha b hb
  simp only [List.mem_singleton] at hb
  subst hb
  exact he a ha

/-- The possible effects of `registerStudent` on the enrollment table: either
it is untouched, or exactly one new row is appended, guarded by the
`unique_enrollment` key check. -/
theorem registerStudent_enrollments_cases (now : Nat) (req : RegisterRequest)
    (st : DBState) :
    (registerStudent now req st).2.enrollments = st.enrollments ∨
    ∃ sid aid g a, req.student_id = some sid ∧ req.activity_id = some aid ∧
      req.grade_level = some g ∧
      enrollmentPairExists st sid aid = false ∧
      (registerStudent now req st).2.enrollments =
        st.enrollments ++ [directEnrollRow st sid aid g req a] := by
  obtain ⟨os, oa, og, oeb, onotes⟩ := req
  cases os with
  | none => left; rfl
  | some sid =>
    cases oa with
    | none => left; rfl
    | some aid =>
      cases og with
      | none => left; rfl
      | some g =>
        cases hf : findActivity st aid with
        | none => left; simp [registerStudent, hf]
        | some a =>
          by_cases h1 : regNotStarted a now = true
          · left; simp [registerStudent, hf, h1]
          · by_cases h2 : regEnded a now = true
            · left; simp [registerStudent, hf, h1, h2]
            · by_cases h3 : hasActiveOrEnrolled st sid aid = true
              · left; simp [registerStudent, hf, h1, h2, h3]
              · by_cases h4 : gradeBelowMin a g = true
                · left
                  simp [registerStudent, hf, h1, h2, h3, h4, logEnrollmentConflict]
                · by_cases h5 : gradeAboveMax a g = true
                  · left
                    simp [registerStudent, hf, h1, h2, h3, h4, h5,
                      logEnrollmentConflict]
                  · cases htc : timeConflicts st sid aid with
                    | cons p rest =>
                      obtain ⟨ca, cs⟩ := p
                      left
                      simp [registerStudent, hf, h1, h2, h3, h4, h5, htc,
                        logEnrollmentConflict]
                    | nil =>
                      by_cases h6 : quotaOf a ≤ activeCount st aid
                      · cases hw : addToWaitlist st sid aid (some g) onotes with
                        | none =>
                          left
                          simp [registerStudent, hf, h1, h2, h3, h4, h5, htc,
                            h6, hw]
                        | some r =>
                          obtain ⟨pos, st1⟩ := r
                          have hst1 : st1.enrollments = st.enrollments := by
                            unfold addToWaitlist at hw
                            split at hw
                            · exact absurd hw (by simp)
                            · simp only [Option.some.injEq, Prod.mk.injEq] at hw
                              rw [← hw.2]
                          left
                          simp [registerStudent, hf, h1, h2, h3, h4, h5, htc,
                            h6, hw, logEnrollmentConflict, hst1]
                      · by_cases h7 : enrollmentPairExists st sid aid = true
                        · left
                          simp [registerStudent, hf, h1, h2, h3, h4, h5, htc,
                            h6, h7]
                        · right
                          refine ⟨sid, aid, g, a, rfl, rfl, rfl,
                            by simpa using h7, ?_⟩
                          simp [registerStudent, hf, h1, h2, h3, h4, h5, htc,
                            h6, h7]

theorem registerStudent_pairUnique (now : Nat) (req : RegisterRequest)
    (st : DBState) (h : PairUnique st.enrollments) :
    PairUnique ((registerStudent now req st).2).enrollments := by
  rcases registerStudent_enrollments_cases now req st with hc | ⟨sid, aid, g, a, _, _, _, hpair, hc⟩
  · rw [hc]; exact h
  · rw [hc]
    refine pairUnique_append h ?_
    intro e' he' hp
    exact (enrollmentPairExists_false_iff.mp hpair e' he')
      ⟨hp.1.trans rfl, hp.2.trans rfl⟩

/-- The possible effects of `cancelEnrollment` on the enrollment table:
unchanged, only the in-place withdrawal update, or the withdrawal plus one
appended promotion row guarded by the `unique_enrollment` key check. -/
theorem cancelEnrollment_enrollments_cases (now eid sid : Nat)
    (reason : Option String) (st : DBState) :
    (cancelEnrollment now eid sid reason st).2 = st ∨
    ∃ e, findCancelTarget st eid sid = some e ∧
      ((cancelEnrollment now eid sid reason st).2.enrollments =
          (withdrawEnrollment now reason e.id st).enrollments ∨
        ∃ w, selectNextWaiting (withdrawEnrollment now reason e.id st)
              e.activity_id = some w ∧
          enrollmentPairExists (withdrawEnrollment now reason e.id st)
              w.student_id e.activity_id = false ∧
          (cancelEnrollment now eid sid reason st).2.enrollments =
            (withdrawEnrollment now reason e.id st).enrollments ++
              [promotedRow (withdrawEnrollment now reason e.id st) w
                e.activity_id]) := by
  cases hfind : findCancelTarget st eid sid with
  | none => left; simp [cancelEnrollment, hfind]
  | some e =>
    cases hsel : selectNextWaiting (withdrawEnrollment now reason e.id st)
        e.activity_id with
    | none =>
      right
      refine ⟨e, rfl, Or.inl ?_⟩
      simp [cancelEnrollment, hfind, promoteFromWaitlist, hsel]
    | some w =>
      by_cases hex : enrollmentPairExists (withdrawEnrollment now reason e.id st)
          w.student_id e.activity_id = true
      · left
        simp [cancelEnrollment, hfind, promoteFromWaitlist, hsel, hex]
      · right
        refine ⟨e, rfl, Or.inr ⟨w, hsel, by simpa using hex, ?_⟩⟩
        simp [cancelEnrollment, hfind, promoteFromWaitlist, hsel, hex]

theorem withdrawEnrollment_pairUnique (now : Nat) (reason : Option String)
    (eid : Nat) (st : DBState) (h : PairUnique st.enrollments) :
    PairUnique ((withdrawEnrollment now reason eid st).enrollments) := by
  refine pairUnique_map _ (fun e => ?_) h
  by_cases he : e.id == eid <;> simp [he]

theorem cancelEnrollment_pairUnique (now eid sid : Nat) (reason : Option String)
    (st : DBState) (h : PairUnique st.enrollments) :
    PairUnique ((cancelEnrollment now eid sid reason st).2).enrollments := by
  rcases cancelEnrollment_enrollments_cases now eid sid reason st with
    hc | ⟨e, _, hc | ⟨w, _, hpair, hc⟩⟩
  · rw [hc]; exact h
  · rw [hc]; exact withdrawEnrollment_pairUnique now reason e.id st h
  · rw [hc]
    refine pairUnique_append (withdrawEnrollment_pairUnique now reason e.id st h) ?_
    intro e' he' hp
    exact (enrollmentPairExists_false_iff.mp hpair e' he')
      ⟨hp.1.trans rfl, hp.2.trans rfl⟩

theorem updateEnrollmentStatus_pairUnique (eid : Nat) (status : EnrollStatus)
    (st : DBState) (h : PairUnique st.enrollments) :
    PairUnique ((updateEnrollmentStatus eid status st).2).enrollments := by
  unfold updateEnrollmentStatus
  by_cases hv : validStatuses.contains status
  · simp only [hv, if_true]
    by_cases hm : st.enrollments.any (fun e => e.id == eid)
    · simp only [hm, if_true]
      refine pairUnique_map _ (fun e => ?_) h
      by_cases he : e.id == eid <;> simp [he]
    · simp only [hm, if_false]; exact h
  · simp only [hv, if_false]; exact h

/-- Every reachable database state keeps at most one enrollment row per
(student, activity) pair: the schema's `unique_enrollment` key refuses any
insert that would duplicate a pair, whatever the statuses involved. -/
theorem reachable_pairUnique {st : DBState} (h : Reachable st) :
    PairUnique st.enrollments := by
  induction h with
  | init activities schedules => exact List.Pairwise.nil
  | register now req st _ ih => exact registerStudent_pairUnique now req st ih
  | cancel now eid sid reason st _ ih =>
    exact cancelEnrollment_pairUnique now eid sid reason st ih
  | updateStatus eid status st _ ih =>
    exact updateEnrollmentStatus_pairUnique eid status st ih

/-- The rows of the enrollment table holding an active or approved enrollment
of student `sid` in activity `aid`. -/
def activeApprovedFor (st : DBState) (sid aid : Nat) : List Enrollment :=
  st.enrollments.filter (fun e =>
    e.student_id == sid && e.activity_id == aid &&
    (e.status == EnrollStatus.active || e.status == EnrollStatus.approved))

theorem pairUnique_filter_length_le_one {l : List Enrollment}
    (h : PairUnique l) (sid aid : Nat) (p : Enrollment → Bool)
    (hp : ∀ e, p e = true → e.student_id = sid ∧ e.activity_id = aid) :
    (l.filter p).length ≤ 1 := by
  have hpw : (l.filter p).Pairwise (fun e1 e2 => ¬ SamePair e1 e2) :=
    List.Pairwise.sublist (List.filter_sublist l) h
  match hl : l.filter p with
  | [] => simp
  | [e] => simp
  | e1 :: e2 :: rest =>
    exfalso
    rw [hl] at hpw
    have h12 := (List.pairwise_cons.mp hpw).1 e2 (by simp)
    have he1 : p e1 = true := List.of_mem_filter (l := l) (by rw [hl]; simp)
    have he2 : p e2 = true := List.of_mem_filter (l := l) (by rw [hl]; simp)
    exact h12 ⟨by rw [(hp e1 he1).1, (hp e2 he2).1],
               by rw [(hp e1 he1).2, (hp e2 he2).2]⟩

theorem reachable_activeApproved_le_one {st : DBState} (h : Reachable st)
    (sid aid : Nat) : (activeApprovedFor st sid aid).length ≤ 1 := by
  refine pairUnique_filter_length_le_one (reachable_pairUnique h) sid aid _ ?_
  intro e he
  simp only [Bool.and_eq_true, beq_iff_eq, Bool.or_eq_true] at he
  exact ⟨he.1.1, he.1.2⟩

/-! ## Properties of the waitlist promotion ordering -/

theorem betterWaitlist_irrefl (w : WaitlistEntry) : betterWaitlist w w = false := by
  simp [betterWaitlist]

theorem betterWaitlist_trans {x b w : WaitlistEntry}
    (h1 : betterWaitlist x b = true) (h2 : betterWaitlist b w = true) :
    betterWaitlist x w = true := by
  simp only [betterWaitlist, Bool.or_eq_true, Bool.and_eq_true, beq_iff_eq,
    decide_eq_true_eq] at h1 h2 ⊢
  omega

theorem betterWaitlist_false_trans {x b w : WaitlistEntry}
    (h1 : betterWaitlist x b = false) (h2 : betterWaitlist b w = false) :
    betterWaitlist x w = false := by
  rw [← Bool.not_eq_true] at h1 h2 ⊢
  simp only [betterWaitlist, Bool.or_eq_true, Bool.and_eq_true, beq_iff_eq,
    decide_eq_true_eq] at h1 h2 ⊢
  omega

/-- Unfolding `betterWaitlist w' w = false`: it says `w` sorts no later than `w'` under
`ORDER BY priority DESC, position ASC`. -/
theorem betterWaitlist_false_iff (w' w : WaitlistEntry) :
    betterWaitlist w' w = false ↔
    (w'.priority ≤ w.priority ∧
      (w'.priority = w.priority → w.position ≤ w'.position)) := by
  rw [← Bool.not_eq_true]
  simp only [betterWaitlist, Bool.or_eq_true, Bool.and_eq_true, beq_iff_eq,
    decide_eq_true_eq]
  omega

theorem selGo_spec (l : List WaitlistEntry) :
    ∀ (acc : Option WaitlistEntry) (w : WaitlistEntry), selGo acc l = some w →
    (acc = some w ∨ w ∈ l) ∧ (∀ w' ∈ l, betterWaitlist w' w = false) ∧
    (∀ b, acc = some b → betterWaitlist b w = false) := by
  induction l with
  | nil =>
    intro acc w h
    simp only [selGo] at h
    refine ⟨Or.inl h, by simp, ?_⟩
    intro b hb
    rw [hb] at h
    injection h with h
    rw [h]
    exact betterWaitlist_irrefl w
  | cons x xs ih =>
    intro acc w h
    cases acc with
    | none =>
      simp only [selGo] at h
      obtain ⟨h1, h2, h3⟩ := ih (some x) w h
      refine ⟨?_, ?_, ?_⟩
      · rcases h1 with h1 | h1
        · injection h1 with h1
          rw [h1]
          exact Or.inr (List.mem_cons_self w xs)
        · exact Or.inr (List.mem_cons_of_mem x h1)
      · intro w' hw'
        rcases List.mem_cons.mp hw' with rfl | hw'
        · exact h3 w' rfl
        · exact h2 w' hw'
      · intro b hb
        exact absurd hb (by simp)
    | some b =>
      simp only [selGo] at h
      cases hxb : betterWaitlist x b with
      | true =>
        rw [hxb, if_pos rfl] at h
        obtain ⟨h1, h2, h3⟩ := ih (some x) w h
        have hxw : betterWaitlist x w = false := h3 x rfl
        have hbw : betterWaitlist b w = false := by
          cases hbw : betterWaitlist b w with
          | false => rfl
          | true => rw [betterWaitlist_trans hxb hbw] at hxw; cases hxw
        refine ⟨?_, ?_, ?_⟩
        · rcases h1 with h1 | h1
          · injection h1 with h1
            rw [h1]
            exact Or.inr (List.mem_cons_self w xs)
          · exact Or.inr (List.mem_cons_of_mem x h1)
        · intro w' hw'
          rcases List.mem_cons.mp hw' with rfl | hw'
          · exact hxw
          · exact h2 w' hw'
        · intro b0 hb0
          injection hb0 with hb0
          rw [← hb0]
          exact hbw
      | false =>
        rw [hxb, if_neg (by simp)] at h
        obtain ⟨h1, h2, h3⟩ := ih (some b) w h
        have hbw : betterWaitlist b w = false := h3 b rfl
        refine ⟨?_, ?_, ?_⟩
        · rcases h1 with h1 | h1
          · exact Or.inl h1
          · exact Or.inr (List.mem_cons_of_mem x h1)
        · intro w' hw'
          rcases List.mem_cons.mp hw' with rfl | hw'
          · exact betterWaitlist_false_trans hxb hbw
          · exact h2 w' hw'
        · intro b0 hb0
          injection hb0 with hb0
          rw [← hb0]
          exact hbw

/-- The row returned by the promotion query is a waiting entry of the
activity that no other waiting entry of the activity beats under `ORDER BY
priority DESC, position ASC`. -/
theorem selectNextWaiting_spec {st : DBState} {aid : Nat} {w : WaitlistEntry}
    (h : selectNextWaiting st aid = some w) :
    w ∈ st.waitlist ∧ w.activity_id = aid ∧ w.status = WaitStatus.waiting ∧
    ∀ w' ∈ st.waitlist, w'.activity_id = aid → w'.status = WaitStatus.waiting →
      betterWaitlist w' w = false := by
  obtain ⟨h1, h2, _⟩ := selGo_spec _ none w h
  have hmem : w ∈ st.waitlist.filter (fun w =>
      w.activity_id == aid && w.status == WaitStatus.waiting) := by
    rcases h1 with h1 | h1
    · exact absurd h1 (by simp)
    · exact h1
  have hsplit := List.mem_filter.mp hmem
  have hpred := hsplit.2
  simp only [Bool.and_eq_true, beq_iff_eq] at hpred
  refine ⟨hsplit.1, hpred.1, hpred.2, ?_⟩
  intro w' hw' ha hs
  refine h2 w' (List.mem_filter.mpr ⟨hw', ?_⟩)
  simp [ha, hs]

/-! ## The registration path after all early checks pass -/

/-- After validation, activity lookup, registration window, duplicate check,
grade checks and the (vacuous) time-conflict query all pass, `registerStudent`
is exactly the quota gate: waitlist on a full activity, direct insert
otherwise, each guarded by the corresponding unique key. -/
theorem registerStudent_checks_passed (now : Nat) (req : RegisterRequest)
    (st : DBState) (sid aid : Nat) (g : Int) (a : Activity)
    (hs : req.student_id = some sid) (ha : req.activity_id = some aid)
    (hg : req.grade_level = some g)
    (hf : findActivity st aid = some a)
    (hw1 : regNotStarted a now = false) (hw2 : regEnded a now = false)
    (hdup : hasActiveOrEnrolled st sid aid = false)
    (hg1 : gradeBelowMin a g = false) (hg2 : gradeAboveMax a g = false)
    (htc : timeConflicts st sid aid = []) :
    registerStudent now req st =
      if quotaOf a ≤ activeCount st aid then
        match addToWaitlist st sid aid (some g) req.notes with
        | none => (RegisterOutcome.serverError, st)
        | some (pos, st1) =>
          (RegisterOutcome.waitlisted pos,
            logEnrollmentConflict st1 sid aid none ConflictType.quota_full none)
      else if enrollmentPairExists st sid aid then
        (RegisterOutcome.serverError, st)
      else
        (RegisterOutcome.enrolled st.nextEnrollId,
          { st with
            enrollments := st.enrollments ++ [directEnrollRow st sid aid g req a],
            nextEnrollId := st.nextEnrollId + 1 }) := by
  obtain ⟨os, oa, og, oeb, onotes⟩ := req
  simp only at hs ha hg
  subst hs
  subst ha
  subst hg
  simp only [registerStudent, hf, hw1, hw2, hdup, hg1, hg2, htc,
    Bool.false_eq_true, if_false]

/-- With the early checks passed but the student already holding an
active/enrolled-status row, `registerStudent` stops with the AlreadyEnrolled
error and leaves the state unchanged. -/
theorem registerStudent_alreadyEnrolled (now : Nat) (req : RegisterRequest)
    (st : DBState) (sid aid : Nat) (g : Int) (a : Activity)
    (hs : req.student_id = some sid) (ha : req.activity_id = some aid)
    (hg : req.grade_level = some g)
    (hf : findActivity st aid = some a)
    (hw1 : regNotStarted a now = false) (hw2 : regEnded a now = false)
    (hdup : hasActiveOrEnrolled st sid aid = true) :
    registerStudent now req st = (RegisterOutcome.alreadyEnrolled, st) := by
  obtain ⟨os, oa, og, oeb, onotes⟩ := req
  simp only at hs ha hg
  subst hs
  subst ha
  subst hg
  simp only [registerStudent, hf, hw1, hw2, hdup, Bool.false_eq_true, if_false,
    if_true]

/-! ## Vacuity of the time-conflict query -/

theorem schedule_eq_of_id {l : List Schedule}
    (h : l.Pairwise (fun s1 s2 => s1.id ≠ s2.id)) {s1 s2 : Schedule}
    (h1 : s1 ∈ l) (h2 : s2 ∈ l) (he : s1.id = s2.id) : s1 = s2 := by
  have hnd : (l.map (fun s => s.id)).Nodup := by
    show (l.map (fun s => s.id)).Pairwise (fun a b => a ≠ b)
    rw [List.pairwise_map]
    exact h
  exact List.inj_on_of_nodup_map hnd h1 h2 he

/-- The time-conflict query of `registerStudent` is vacuous: its condition
`asch.id IN (SELECT id FROM activity_schedules WHERE activity_id = target)`
forces the joined schedule `asch` to belong to the target activity itself,
while the join chain ties `asch` to an activity the student holds an active
enrollment in — so, whenever the step-3 duplicate check has passed, the query
necessarily returns no rows and no time overlap can ever be reported. -/
theorem timeConflicts_nil_of_not_enrolled (st : DBState) (sid aid : Nat)
    (hids : st.schedules.Pairwise (fun s1 s2 => s1.id ≠ s2.id))
    (hno : hasActiveOrEnrolled st sid aid = false) :
    timeConflicts st sid aid = [] := by
  rw [List.eq_nil_iff_forall_not_mem]
  intro p hp
  simp only [timeConflicts, List.mem_flatMap, List.mem_filter, List.mem_map,
    Bool.and_eq_true, beq_iff_eq] at hp
  obtain ⟨ae, ⟨hae_mem, hae_stu, hae_act⟩, a, ⟨ha_mem, ha_id, ha_act⟩,
    asch, ⟨hasch_mem, hh⟩, _⟩ := hp
  obtain ⟨⟨⟨hasch_act, _⟩, hcont⟩, _⟩ := hh
  have hin : asch.id ∈ targetScheduleIds st aid := by
    simpa using hcont
  simp only [targetScheduleIds, List.mem_map, List.mem_filter,
    Bool.and_eq_true, beq_iff_eq] at hin
  obtain ⟨s, ⟨hs_mem, hs_act, _⟩, hs_id⟩ := hin
  have hseq : s = asch := schedule_eq_of_id hids hs_mem hasch_mem hs_id
  have : ae.activity_id = aid := by
    rw [← ha_id, ← hasch_act, ← hseq]
    exact hs_act
  rw [Bool.eq_false_iff] at hno
  exact hno (by
    rw [hasActiveOrEnrolled, List.any_eq_true]
    exact ⟨ae, hae_mem, by simp [hae_stu, this, hae_act]⟩)

/-! ## Concrete scenarios -/

/-- Activity A of the spec's conflict test: schedule Mon 16:00-17:00. -/
def actA : Activity := ⟨1, ActStatus.active, 30, none, none, none, none, none, none⟩

/-- Activity B of the spec's conflict test: schedule Mon 16:30-17:30. -/
def actB : Activity := ⟨2, ActStatus.active, 30, none, none, none, none, none, none⟩

/-- Schedule of activity A: Monday 960-1020 minutes (16:00-17:00). -/
def schA : Schedule := ⟨10, 1, none, Day.monday, 960, 1020, true⟩

/-- Schedule of activity B: Monday 990-1050 minutes (16:30-17:30). -/
def schB : Schedule := ⟨20, 2, none, Day.monday, 990, 1050, true⟩

/-- Student 1 holds an active enrollment in activity A. -/
def enrA : Enrollment :=
  ⟨1, 1, 1, some 5, EnrollStatus.active, none, none, 0, none, none⟩

/-- State of the spec's conflict test: both activities active with their
overlapping Monday schedules, student 1 actively enrolled in A. -/
def conflictState : DBState := ⟨[actA, actB], [schA, schB], [enrA], [], [], 2, 1⟩

/-- Student 1's request to register for activity B. -/
def conflictReq : RegisterRequest := ⟨some 1, some 2, some 5, none, none⟩

/-- C1.  The Conflict Checker has a false negative: with student 1 actively
enrolled in activity A (Mon 16:00-17:00, truly overlapping activity B's Mon
16:30-17:30 slot), the time-conflict query returns no rows and
`registerStudent` enrolls the student in B instead of rejecting with a
ScheduleConflict (time_overlap) error — the query's
`asch.id IN (target's schedule ids)` condition makes it vacuous. -/
theorem registerStudent_misses_true_overlap :
    overlapSpec 990 1050 960 1020 = true ∧
    overlap3 990 1050 960 1020 = true ∧
    timeConflicts conflictState 1 2 = [] ∧
    (registerStudent 0 conflictReq conflictState).1 = RegisterOutcome.enrolled 2 ∧
    (registerStudent 0 conflictReq conflictState).2.enrollments.length = 2 := by
  decide

/-- C5.  For schedules with `start < end`, the code's three-case disjunction
`overlap3` coincides exactly with the spec's half-open rule `overlapSpec`, and
intervals that merely touch at an endpoint satisfy neither. -/
theorem overlap3_equiv_overlapSpec (sA eA sB eB : Nat)
    (hA : sA < eA) (hB : sB < eB) :
    ((overlap3 sA eA sB eB = true) ↔ (overlapSpec sA eA sB eB = true)) ∧
    ((eA = sB ∨ eB = sA) →
      overlap3 sA eA sB eB = false ∧ overlapSpec sA eA sB eB = false) := by
  constructor
  · simp only [overlap3, overlapSpec, Bool.or_eq_true, Bool.and_eq_true,
      decide_eq_true_eq]
    omega
  · intro h
    constructor <;>
    · rw [← Bool.not_eq_true]
      simp only [overlap3, overlapSpec, Bool.or_eq_true, Bool.and_eq_true,
        decide_eq_true_eq]
      omega

/-- Witness for C5 at the spec's example intervals 16:00-17:00 and
16:30-17:30. -/
theorem overlap3_equiv_overlapSpec_witness :
    ((overlap3 960 1020 990 1050 = true) ↔
      (overlapSpec 960 1020 990 1050 = true)) ∧
    ((1020 = 990 ∨ 1050 = 960) →
      overlap3 960 1020 990 1050 = false ∧
      overlapSpec 960 1020 990 1050 = false) :=
  overlap3_equiv_overlapSpec 960 1020 990 1050 (by decide) (by decide)

/-- An unrestricted active activity with free capacity used by the round-trip
scenario. -/
def rtActivity : Activity :=
  ⟨1, ActStatus.active, 30, none, none, none, none, none, none⟩

/-- Round-trip scenario start: one activity, no enrollments anywhere. -/
def rtState0 : DBState := ⟨[rtActivity], [], [], [], [], 1, 1⟩

/-- Student 1's registration request for the round-trip scenario. -/
def rtReq : RegisterRequest := ⟨some 1, some 1, some 6, none, none⟩

/-- State after student 1's first registration. -/
def rtState1 : DBState := (registerStudent 0 rtReq rtState0).2

/-- State after cancelling that enrollment. -/
def rtState2 : DBState := (cancelEnrollment 0 1 1 none rtState1).2

/-- C8.  The round-trip fails at the re-registration step: register and cancel
succeed, the withdrawn row is kept as history, but the immediate
re-registration hits the schema's `unique_enrollment (student_id,
activity_id)` key (which ignores status), so the insert raises, the
transaction rolls back and the caller gets the generic 500 failure — no new
active enrollment row is created. -/
theorem roundTrip_reregistration_fails :
    (registerStudent 0 rtReq rtState0).1 = RegisterOutcome.enrolled 1 ∧
    (cancelEnrollment 0 1 1 none rtState1).1 = CancelOutcome.cancelled none ∧
    (∃ e ∈ rtState2.enrollments, e.student_id = 1 ∧ e.activity_id = 1 ∧
      e.status = EnrollStatus.withdrawn) ∧
    (registerStudent 0 rtReq rtState2).1 = RegisterOutcome.serverError ∧
    (registerStudent 0 rtReq rtState2).2 = rtState2 := by
  decide

/-- C10.  `registerStudent` validates that `student_id`, `activity_id` and
`grade_level` are all present before touching any state: a request missing
any of the three gets the 400 validation error and the state is returned
unchanged. -/
theorem registerStudent_requires_grade_level (now : Nat) (req : RegisterRequest)
    (st : DBState)
    (h : req.student_id = none ∨ req.activity_id = none ∨
      req.grade_level = none) :
    registerStudent now req st = (RegisterOutcome.validationError, st) := by
  obtain ⟨os, oa, og, oeb, onotes⟩ := req
  simp only at h
  rcases h with h | h | h
  · subst h
    rfl
  · subst h
    cases os with
    | none => rfl
    | some _ => rfl
  · subst h
    cases os with
    | none => rfl
    | some _ =>
      cases oa with
      | none => rfl
      | some _ => rfl

/-- Witness for C10: a request without `grade_level` is rejected with the
validation error and no state change. -/
theorem registerStudent_requires_grade_level_witness :
    registerStudent 0 ⟨some 1, some 1, none, none, none⟩ rtState0 =
      (RegisterOutcome.validationError, rtState0) :=
  registerStudent_requires_grade_level 0 ⟨some 1, some 1, none, none, none⟩
    rtState0 (Or.inr (Or.inr rfl))

/-! ## Capacity gate and uniqueness -/

/-- Modelled from the spec: the Capacity Gate's `active_count = |{enrollments:
activity_id=X, status ∈ {active,approved}}|` formula, kept separate from
`activeCount` (which embeds the code's `ae.status = 'active'` join) so the two
can be compared. -/
def activeApprovedCount (st : DBState) (aid : Nat) : Nat :=
  (st.enrollments.filter (fun e => e.activity_id == aid &&
    (e.status == EnrollStatus.active ||
      e.status == EnrollStatus.approved))).length

/-- Inversion for a successful waitlist insert: it touches only the waitlist
table and its counter. -/
theorem addToWaitlist_some {st st1 : DBState} {sid aid : Nat} {g : Option Int}
    {notes : Option String} {pos : Nat}
    (hw : addToWaitlist st sid aid g notes = some (pos, st1)) :
    pos = nextWaitlistPosition st aid ∧
    st1 = { st with
      waitlist := st.waitlist ++
        [⟨st.nextWaitId, sid, aid, g, 0, pos, WaitStatus.waiting, none, notes⟩],
      nextWaitId := st.nextWaitId + 1 } := by
  unfold addToWaitlist at hw
  split at hw
  · exact absurd hw (by simp)
  · simp only [Option.some.injEq, Prod.mk.injEq] at hw
    refine ⟨hw.1.symm, ?_⟩
    rw [← hw.2, ← hw.1]

/-- An activity with capacity one, used by the capacity scenarios. -/
def capActivity : Activity :=
  ⟨1, ActStatus.active, 1, none, none, none, none, none, none⟩

/-- Student 1 requesting activity 1 at grade 5. -/
def reqS1A1 : RegisterRequest := ⟨some 1, some 1, some 5, none, none⟩

/-- Student 2 requesting activity 1 at grade 5. -/
def reqS2A1 : RegisterRequest := ⟨some 2, some 1, some 5, none, none⟩

/-- C2 scenario: start from an empty store with the capacity-one activity. -/
def c2State0 : DBState := ⟨[capActivity], [], [], [], [], 1, 1⟩

/-- C2 scenario after student 1 registers (one active enrollment, id 1). -/
def c2State1 : DBState := (registerStudent 0 reqS1A1 c2State0).2

/-- C2 scenario after the coach approves enrollment 1. -/
def c2State2 : DBState :=
  (updateEnrollmentStatus 1 EnrollStatus.approved c2State1).2

/-- C2 scenario after student 2 registers and fills the single seat. -/
def c2State3 : DBState := (registerStudent 0 reqS2A1 c2State2).2

/-- Counterexample for C2.  In the reachable state `c2State3` student 1 holds
an approved enrollment in activity 1, yet a second registration attempt does
not fail with AlreadyEnrolled: the duplicate check only looks for statuses
`active` and `enrolled`, so the attempt falls through to the quota gate and
succeeds as a waitlisting, creating a waitlist entry. -/
theorem approved_reregistration_waitlisted :
    Reachable c2State3 ∧
    (∃ e ∈ c2State3.enrollments, e.student_id = 1 ∧ e.activity_id = 1 ∧
      e.status = EnrollStatus.approved) ∧
    (registerStudent 0 reqS1A1 c2State3).1 = RegisterOutcome.waitlisted 1 ∧
    (registerStudent 0 reqS1A1 c2State3).2.waitlist.length = 1 := by
  refine ⟨?_, by decide, by decide, by decide⟩
  exact Reachable.register 0 reqS2A1 c2State2
    (Reachable.updateStatus 1 EnrollStatus.approved c2State1
      (Reachable.register 0 reqS1A1 c2State0
        (Reachable.init [capActivity] [])))

/-- C2 (amended).  Every reachable state has at most one enrollment row per
(student, activity) pair in statuses active/approved (in fact at most one row
of any status, enforced by the `unique_enrollment` key); and a registration
attempt fails with AlreadyEnrolled exactly on the statuses the code checks —
whenever the student holds an `active`/`enrolled`-status row — leaving the
state unchanged.  Approved rows are not caught by that check (see the
counterexample). -/
theorem uniqueness_invariant_amended :
    (∀ st : DBState, Reachable st → ∀ sid aid : Nat,
      (activeApprovedFor st sid aid).length ≤ 1) ∧
    (∀ (now : Nat) (req : RegisterRequest) (st : DBState) (sid aid : Nat)
        (g : Int) (a : Activity),
      req.student_id = some sid → req.activity_id = some aid →
      req.grade_level = some g → findActivity st aid = some a →
      regNotStarted a now = false → regEnded a now = false →
      hasActiveOrEnrolled st sid aid = true →
      registerStudent now req st = (RegisterOutcome.alreadyEnrolled, st)) :=
  ⟨fun _ h sid aid => reachable_activeApproved_le_one h sid aid,
   fun now req st sid aid g a hs ha hg hf h1 h2 hd =>
     registerStudent_alreadyEnrolled now req st sid aid g a hs ha hg hf h1 h2 hd⟩

/-- Student 1 already actively enrolled in activity 1, open capacity. -/
def dupState : DBState := ⟨[rtActivity], [], [enrA], [], [], 2, 1⟩

/-- Witness for C2 (amended): the invariant bound at a concrete reachable
state, and a concrete duplicate registration rejected with AlreadyEnrolled. -/
theorem uniqueness_invariant_amended_witness :
    (activeApprovedFor rtState0 1 1).length ≤ 1 ∧
    registerStudent 0 rtReq dupState = (RegisterOutcome.alreadyEnrolled, dupState) :=
  ⟨uniqueness_invariant_amended.1 rtState0 (Reachable.init [rtActivity] []) 1 1,
   uniqueness_invariant_amended.2 0 rtReq dupState 1 1 6 rtActivity rfl rfl rfl
     (by decide) (by decide) (by decide) (by decide)⟩

/-- One approved enrollment (student 2) in the capacity-one activity. -/
def c3Enr : Enrollment :=
  ⟨1, 2, 1, some 5, EnrollStatus.approved, none, none, 0, none, none⟩

/-- C3 counterexample state: the approved row is the only enrollment. -/
def c3State : DBState := ⟨[capActivity], [], [c3Enr], [], [], 2, 1⟩

/-- Counterexample for C3.  The spec's `active_count` (statuses active and
approved) is 1 = capacity, so per the claim the direct-enrollment path must
not be taken; but the code's count only joins `status = 'active'`, sees 0 < 1,
and inserts directly — ending with two active/approved rows against a
capacity of one. -/
theorem capacityGate_ignores_approved :
    quotaOf capActivity = 1 ∧
    activeApprovedCount c3State 1 = 1 ∧
    activeCount c3State 1 = 0 ∧
    (registerStudent 0 reqS1A1 c3State).1 = RegisterOutcome.enrolled 2 ∧
    activeApprovedCount (registerStudent 0 reqS1A1 c3State).2 1 = 2 := by
  decide

/-- C3 (amended).  With the earlier checks passed and both unique keys clear,
`registerStudent` takes the direct-enrollment path exactly when the code's
`active_count` — which counts only `status = 'active'` rows, not approved
ones — is below `quota || max_students || 30`; at or over that capacity no
enrollment row is inserted. -/
theorem capacityGate_active_only (now : Nat) (req : RegisterRequest)
    (st : DBState) (sid aid : Nat) (g : Int) (a : Activity)
    (hs : req.student_id = some sid) (ha : req.activity_id = some aid)
    (hg : req.grade_level = some g)
    (hf : findActivity st aid = some a)
    (hw1 : regNotStarted a now = false) (hw2 : regEnded a now = false)
    (hdup : hasActiveOrEnrolled st sid aid = false)
    (hg1 : gradeBelowMin a g = false) (hg2 : gradeAboveMax a g = false)
    (htc : timeConflicts st sid aid = [])
    (hpair : enrollmentPairExists st sid aid = false) :
    (activeCount st aid < quotaOf a →
      registerStudent now req st = (RegisterOutcome.enrolled st.nextEnrollId,
        { st with
          enrollments := st.enrollments ++ [directEnrollRow st sid aid g req a],
          nextEnrollId := st.nextEnrollId + 1 })) ∧
    (quotaOf a ≤ activeCount st aid →
      (registerStudent now req st).2.enrollments = st.enrollments ∧
      ∀ k : Nat, (registerStudent now req st).1 ≠ RegisterOutcome.enrolled k) := by
  have hmain := registerStudent_checks_passed now req st sid aid g a hs ha hg
    hf hw1 hw2 hdup hg1 hg2 htc
  constructor
  · intro hlt
    rw [hmain, if_neg (by omega), if_neg (by simp [hpair])]
  · intro hge
    rw [hmain, if_pos hge]
    cases hw : addToWaitlist st sid aid (some g) req.notes with
    | none => exact ⟨rfl, by simp⟩
    | some r =>
      obtain ⟨pos, st1⟩ := r
      obtain ⟨-, hst1⟩ := addToWaitlist_some hw
      subst hst1
      exact ⟨by simp [logEnrollmentConflict], by simp⟩

/-- Witness for C3 (amended) on the open one-seat activity. -/
theorem capacityGate_active_only_witness :
    (activeCount c2State0 1 < quotaOf capActivity →
      registerStudent 0 reqS1A1 c2State0 =
        (RegisterOutcome.enrolled c2State0.nextEnrollId,
          { c2State0 with
            enrollments := c2State0.enrollments ++
              [directEnrollRow c2State0 1 1 5 reqS1A1 capActivity],
            nextEnrollId := c2State0.nextEnrollId + 1 })) ∧
    (quotaOf capActivity ≤ activeCount c2State0 1 →
      (registerStudent 0 reqS1A1 c2State0).2.enrollments =
        c2State0.enrollments ∧
      ∀ k : Nat, (registerStudent 0 reqS1A1 c2State0).1 ≠
        RegisterOutcome.enrolled k) :=
  capacityGate_active_only 0 reqS1A1 c2State0 1 1 5 capActivity rfl rfl rfl
    (by decide) (by decide) (by decide) (by decide) (by decide) (by decide)
    (by decide) (by decide)

/-- The capacity-one activity filled by an active enrollment of student 2. -/
def c6Enr : Enrollment :=
  ⟨1, 2, 1, some 5, EnrollStatus.active, none, none, 0, none, none⟩

/-- Student 1 already has a waiting waitlist entry for activity 1. -/
def c6Wait : WaitlistEntry :=
  ⟨1, 1, 1, some 5, 0, 1, WaitStatus.waiting, none, none⟩

/-- C6 counterexample state: full activity, student 1 already waitlisted. -/
def c6State : DBState := ⟨[capActivity], [], [c6Enr], [c6Wait], [], 2, 2⟩

/-- Counterexample for C6.  A registration attempt that passes every check and
finds the activity full does not always succeed with a waitlist outcome: if
the student already has a waitlist row for the activity (here an earlier
waiting entry), the waitlist insert violates `unique_waitlist`, the
transaction rolls back, and the caller gets the generic 500 failure. -/
theorem quotaFull_repeat_attempt_fails :
    activeCount c6State 1 = 1 ∧
    quotaOf capActivity = 1 ∧
    hasActiveOrEnrolled c6State 1 1 = false ∧
    (registerStudent 0 reqS1A1 c6State).1 = RegisterOutcome.serverError ∧
    (registerStudent 0 reqS1A1 c6State).2 = c6State := by
  decide

/-- C6 (amended).  With all other checks passed, the activity at or over
capacity, and no prior waitlist row for the pair, `registerStudent` succeeds
with the waitlisted outcome: it appends one status-`waiting` entry at position
`max(position among waiting entries) + 1` — which is 1 when the activity has
no waiting entry — reports that position, and inserts no enrollment row. -/
theorem quotaFull_waitlists (now : Nat) (req : RegisterRequest)
    (st : DBState) (sid aid : Nat) (g : Int) (a : Activity)
    (hs : req.student_id = some sid) (ha : req.activity_id = some aid)
    (hg : req.grade_level = some g)
    (hf : findActivity st aid = some a)
    (hw1 : regNotStarted a now = false) (hw2 : regEnded a now = false)
    (hdup : hasActiveOrEnrolled st sid aid = false)
    (hg1 : gradeBelowMin a g = false) (hg2 : gradeAboveMax a g = false)
    (htc : timeConflicts st sid aid = [])
    (hge : quotaOf a ≤ activeCount st aid)
    (hwp : waitlistPairExists st sid aid = false) :
    (registerStudent now req st).1 =
      RegisterOutcome.waitlisted (nextWaitlistPosition st aid) ∧
    (registerStudent now req st).2.waitlist = st.waitlist ++
      [⟨st.nextWaitId, sid, aid, some g, 0, nextWaitlistPosition st aid,
        WaitStatus.waiting, none, req.notes⟩] ∧
    (registerStudent now req st).2.enrollments = st.enrollments ∧
    ((∀ w ∈ st.waitlist, ¬(w.activity_id = aid ∧ w.status = WaitStatus.waiting))
      → nextWaitlistPosition st aid = 1) := by
  have hmain := registerStudent_checks_passed now req st sid aid g a hs ha hg
    hf hw1 hw2 hdup hg1 hg2 htc
  rw [hmain, if_pos hge]
  have hadd : addToWaitlist st sid aid (some g) req.notes =
      some (nextWaitlistPosition st aid,
        { st with
          waitlist := st.waitlist ++
            [⟨st.nextWaitId, sid, aid, some g, 0, nextWaitlistPosition st aid,
              WaitStatus.waiting, none, req.notes⟩],
          nextWaitId := st.nextWaitId + 1 }) := by
    unfold addToWaitlist
    rw [if_neg (by simp [hwp])]
  rw [hadd]
  refine ⟨rfl, by simp [logEnrollmentConflict], by simp [logEnrollmentConflict], ?_⟩
  intro hempty
  have hnil : st.waitlist.filter (fun w =>
      w.activity_id == aid && w.status == WaitStatus.waiting) = [] := by
    rw [List.filter_eq_nil_iff]
    intro w hw
    simp only [Bool.and_eq_true, beq_iff_eq, not_and]
    intro h1 h2
    exact absurd ⟨h1, h2⟩ (hempty w hw)
  rw [nextWaitlistPosition, hnil]
  rfl

/-- The full activity with an empty waitlist, for the C6 witness. -/
def c6wState : DBState := ⟨[capActivity], [], [c6Enr], [], [], 2, 1⟩

/-- Witness for C6 (amended): a concrete full activity with empty waitlist;
the attempt is waitlisted at position 1. -/
theorem quotaFull_waitlists_witness :
    (registerStudent 0 reqS1A1 c6wState).1 =
      RegisterOutcome.waitlisted (nextWaitlistPosition c6wState 1) ∧
    (registerStudent 0 reqS1A1 c6wState).2.waitlist = c6wState.waitlist ++
      [⟨c6wState.nextWaitId, 1, 1, some 5, 0, nextWaitlistPosition c6wState 1,
        WaitStatus.waiting, none, reqS1A1.notes⟩] ∧
    (registerStudent 0 reqS1A1 c6wState).2.enrollments = c6wState.enrollments ∧
    ((∀ w ∈ c6wState.waitlist,
        ¬(w.activity_id = 1 ∧ w.status = WaitStatus.waiting)) →
      nextWaitlistPosition c6wState 1 = 1) :=
  quotaFull_waitlists 0 reqS1A1 c6wState 1 1 5 capActivity rfl rfl rfl
    (by decide) (by decide) (by decide) (by decide) (by decide) (by decide)
    (by decide) (by decide) (by decide)

/-- An approved enrollment (id 5) of student 1, for the C9 scenario. -/
def c9Enr : Enrollment :=
  ⟨5, 1, 1, some 5, EnrollStatus.approved, none, none, 0, none, none⟩

/-- C9 counterexample state. -/
def c9State : DBState := ⟨[actA], [], [c9Enr], [], [], 6, 1⟩

/-- Counterexample for C9.  `cancelEnrollment` only matches `status =
'active'`: an approved enrollment yields the NotFound failure instead of being
withdrawn. -/
theorem cancel_approved_notFound :
    (∃ e ∈ c9State.enrollments, e.id = 5 ∧ e.student_id = 1 ∧
      e.status = EnrollStatus.approved) ∧
    (cancelEnrollment 0 5 1 none c9State).1 = CancelOutcome.notFound ∧
    (cancelEnrollment 0 5 1 none c9State).2 = c9State := by
  decide

/-- C9 (amended).  `cancelEnrollment` returns NotFound exactly when no
enrollment with the given id and student id has status `active` (so approved
enrollments are also reported NotFound), and on that failure the state is
unchanged. -/
theorem cancelEnrollment_notFound_iff (now eid sid : Nat)
    (reason : Option String) (st : DBState) :
    ((cancelEnrollment now eid sid reason st).1 = CancelOutcome.notFound ↔
      ∀ e ∈ st.enrollments,
        ¬(e.id = eid ∧ e.student_id = sid ∧ e.status = EnrollStatus.active)) ∧
    ((cancelEnrollment now eid sid reason st).1 = CancelOutcome.notFound →
      (cancelEnrollment now eid sid reason st).2 = st) := by
  cases hfind : findCancelTarget st eid sid with
  | none =>
    have hall : ∀ e ∈ st.enrollments,
        ¬(e.id = eid ∧ e.student_id = sid ∧ e.status = EnrollStatus.active) := by
      rw [findCancelTarget, List.find?_eq_none] at hfind
      intro e he hc
      exact hfind e he (by simp [hc.1, hc.2.1, hc.2.2])
    refine ⟨⟨fun _ => hall, fun _ => ?_⟩, fun _ => ?_⟩
    · simp [cancelEnrollment, hfind]
    · simp [cancelEnrollment, hfind]
  | some e =>
    have hmem := List.mem_of_find?_eq_some hfind
    have hpred := List.find?_some hfind
    simp only [Bool.and_eq_true, beq_iff_eq] at hpred
    have hne : (cancelEnrollment now eid sid reason st).1 ≠
        CancelOutcome.notFound := by
      simp only [cancelEnrollment, hfind]
      cases hpro : promoteFromWaitlist now (withdrawEnrollment now reason e.id st)
          e.activity_id with
      | none => simp
      | some r =>
        obtain ⟨p, st2⟩ := r
        simp
    refine ⟨⟨fun h => absurd h hne, fun hall => ?_⟩, fun h => absurd h hne⟩
    exact absurd ⟨hpred.1.1, hpred.1.2, hpred.2⟩ (hall e hmem)

/-- Witness for C9 (amended) at the approved-enrollment state. -/
theorem cancelEnrollment_notFound_iff_witness :
    ((cancelEnrollment 0 5 1 none c9State).1 = CancelOutcome.notFound ↔
      ∀ e ∈ c9State.enrollments,
        ¬(e.id = 5 ∧ e.student_id = 1 ∧ e.status = EnrollStatus.active)) ∧
    ((cancelEnrollment 0 5 1 none c9State).1 = CancelOutcome.notFound →
      (cancelEnrollment 0 5 1 none c9State).2 = c9State) :=
  cancelEnrollment_notFound_iff 0 5 1 none c9State

/-! ## Waitlist promotion -/

theorem map_id_of_eq {α : Type} (f : α → α) (l : List α)
    (h : ∀ x ∈ l, f x = x) : l.map f = l := by
  induction l with
  | nil => rfl
  | cons x xs ih =>
    rw [List.map_cons, h x (by simp), ih (fun y hy => h y (by simp [hy]))]

theorem waitlist_eq_of_id {l : List WaitlistEntry}
    (h : l.Pairwise (fun w1 w2 => w1.id ≠ w2.id)) {w1 w2 : WaitlistEntry}
    (h1 : w1 ∈ l) (h2 : w2 ∈ l) (he : w1.id = w2.id) : w1 = w2 := by
  have hnd : (l.map (fun w => w.id)).Nodup := by
    show (l.map (fun w => w.id)).Pairwise (fun a b => a ≠ b)
    rw [List.pairwise_map]
    exact h
  exact List.inj_on_of_nodup_map hnd h1 h2 he

/-- A withdrawn history row of student 3 in activity 1. -/
def c4Hist : Enrollment :=
  ⟨1, 3, 1, some 5, EnrollStatus.withdrawn, none, none, 0, none, none⟩

/-- The active enrollment of student 2 whose cancellation should free the
seat. -/
def c4Active : Enrollment :=
  ⟨2, 2, 1, some 5, EnrollStatus.active, none, none, 0, none, none⟩

/-- Student 3's waiting entry for activity 1. -/
def c4Wait : WaitlistEntry :=
  ⟨1, 3, 1, some 5, 0, 1, WaitStatus.waiting, none, none⟩

/-- C4 counterexample state: student 3 is waiting and also has a withdrawn
history row for the same activity. -/
def c4State : DBState := ⟨[actA], [], [c4Hist, c4Active], [c4Wait], [], 3, 2⟩

/-- Counterexample for C4.  With student 3 as the single waiting entry but a
withdrawn history row in `activity_enrollments`, the promotion INSERT
violates `unique_enrollment`: `promoteFromWaitlist` inserts nothing, marks
nothing promoted, and the escaping error makes the whole cancellation roll
back with a 500 — rather than inserting exactly one active enrollment and
marking exactly one entry promoted as the claim states. -/
theorem promotion_blocked_by_history :
    selectNextWaiting c4State 1 = some c4Wait ∧
    promoteFromWaitlist 0 c4State 1 = none ∧
    (cancelEnrollment 0 2 2 none c4State).1 = CancelOutcome.serverError ∧
    (cancelEnrollment 0 2 2 none c4State).2 = c4State := by
  decide

/-- C4 (amended).  `promoteFromWaitlist` is a no-op on an empty waitlist; when
a waiting entry exists it selects one with maximal priority and, among those,
minimal position; if the selected student already has any enrollment row for
the activity the insert raises and nothing is promoted; otherwise it inserts
exactly one new active enrollment for the selected student and flips exactly
the selected entry to `promoted` with the promoted-at timestamp — at most one
promotion per invocation. -/
theorem promoteFromWaitlist_spec (now : Nat) (st : DBState) (aid : Nat) :
    (selectNextWaiting st aid = none →
      promoteFromWaitlist now st aid = some (none, st)) ∧
    (∀ w, selectNextWaiting st aid = some w →
      w ∈ st.waitlist ∧ w.activity_id = aid ∧ w.status = WaitStatus.waiting ∧
      (∀ w' ∈ st.waitlist, w'.activity_id = aid →
        w'.status = WaitStatus.waiting →
        w'.priority ≤ w.priority ∧
          (w'.priority = w.priority → w.position ≤ w'.position)) ∧
      (enrollmentPairExists st w.student_id aid = true →
        promoteFromWaitlist now st aid = none) ∧
      (enrollmentPairExists st w.student_id aid = false →
        st.waitlist.Pairwise (fun w1 w2 => w1.id ≠ w2.id) →
        promoteFromWaitlist now st aid = some (some w.student_id,
          { st with
            enrollments := st.enrollments ++ [promotedRow st w aid],
            nextEnrollId := st.nextEnrollId + 1,
            waitlist := st.waitlist.map (markPromoted now w.id) }) ∧
        ∃ l1 l2, st.waitlist = l1 ++ w :: l2 ∧
          st.waitlist.map (markPromoted now w.id) =
            l1 ++ ({ w with
                      status := WaitStatus.promoted,
                      promoted_at := some now } : WaitlistEntry) :: l2)) := by
  constructor
  · intro hsel
    rw [promoteFromWaitlist, hsel]
  · intro w hsel
    obtain ⟨hmem, hact, hstat, hbest⟩ := selectNextWaiting_spec hsel
    refine ⟨hmem, hact, hstat, ?_, ?_, ?_⟩
    · intro w' hw' ha hs
      exact (betterWaitlist_false_iff w' w).mp (hbest w' hw' ha hs)
    · intro hex
      simp [promoteFromWaitlist, hsel, hex]
    · intro hex hids
      constructor
      · simp [promoteFromWaitlist, hsel, hex]
      · obtain ⟨l1, l2, hsplit⟩ := List.append_of_mem hmem
        refine ⟨l1, l2, hsplit, ?_⟩
        rw [hsplit] at hids
        obtain ⟨hp1, hp2, hcross⟩ := List.pairwise_append.mp hids
        have hhead := List.pairwise_cons.mp hp2
        rw [hsplit, List.map_append, List.map_cons]
        have hl1 : l1.map (markPromoted now w.id) = l1 := by
          refine map_id_of_eq _ _ (fun x hx => ?_)
          have hne : x.id ≠ w.id := hcross x hx w (by simp)
          rw [markPromoted, if_neg (by simpa using hne)]
        have hl2 : l2.map (markPromoted now w.id) = l2 := by
          refine map_id_of_eq _ _ (fun y hy => ?_)
          have hne : y.id ≠ w.id := (hhead.1 y hy).symm
          rw [markPromoted, if_neg (by simpa using hne)]
        have hw : markPromoted now w.id w =
            { w with status := WaitStatus.promoted, promoted_at := some now } := by
          rw [markPromoted, if_pos (by simp)]
        rw [hl1, hl2, hw]

/-- The spec's FIFO-with-priority waitlist: S1 (priority 0), S2 (priority 5),
S3 (priority 0) queued in this order. -/
def w1F : WaitlistEntry := ⟨1, 11, 1, some 5, 0, 1, WaitStatus.waiting, none, none⟩

/-- Second queued entry, student 12, priority 5. -/
def w2F : WaitlistEntry := ⟨2, 12, 1, some 5, 5, 2, WaitStatus.waiting, none, none⟩

/-- Third queued entry, student 13, priority 0. -/
def w3F : WaitlistEntry := ⟨3, 13, 1, some 5, 0, 3, WaitStatus.waiting, none, none⟩

/-- State with the three waiting entries and no enrollments. -/
def stF : DBState := ⟨[actA], [], [], [w1F, w2F, w3F], [], 1, 4⟩

/-- Witness for C4 (amended): with S1/S2/S3 queued at priorities 0/5/0, the
promotion picks S2 (student 12), inserting its enrollment and marking its
entry. -/
theorem promoteFromWaitlist_spec_witness :
    promoteFromWaitlist 0 stF 1 = some (some w2F.student_id,
      { stF with
        enrollments := stF.enrollments ++ [promotedRow stF w2F 1],
        nextEnrollId := stF.nextEnrollId + 1,
        waitlist := stF.waitlist.map (markPromoted 0 w2F.id) }) :=
  ((((promoteFromWaitlist_spec 0 stF 1).2 w2F
    (by decide)).2.2.2.2.2 (by decide) (by decide)).1)

/-! ## Atomicity of cancellation plus promotion -/

/-- The all-or-nothing contract of `cancelEnrollment` on a state `st`: either
the state is returned unchanged together with an error outcome, or the
cancellation succeeded — the matching active enrollment is recorded withdrawn
with the timestamp and reason, and any waitlist entry that shows up promoted
afterwards either was already in the waitlist before or has a matching new
active enrollment row in the result. -/
def CancelAtomic (now eid sid : Nat) (reason : Option String)
    (st : DBState) : Prop :=
  ((cancelEnrollment now eid sid reason st).2 = st ∧
    ((cancelEnrollment now eid sid reason st).1 = CancelOutcome.notFound ∨
     (cancelEnrollment now eid sid reason st).1 = CancelOutcome.serverError)) ∨
  ((∃ p, (cancelEnrollment now eid sid reason st).1 =
      CancelOutcome.cancelled p) ∧
   (∃ e ∈ st.enrollments, e.id = eid ∧ e.student_id = sid ∧
      e.status = EnrollStatus.active) ∧
   (∃ e' ∈ (cancelEnrollment now eid sid reason st).2.enrollments,
      e'.id = eid ∧ e'.status = EnrollStatus.withdrawn ∧
      e'.cancelled_at = some now ∧
      e'.cancellation_reason = some (reason.getD defaultCancellationReason)) ∧
   (∀ w ∈ (cancelEnrollment now eid sid reason st).2.waitlist,
      w.status = WaitStatus.promoted → w ∈ st.waitlist ∨
      ∃ en ∈ (cancelEnrollment now eid sid reason st).2.enrollments,
        en.student_id = w.student_id ∧ en.activity_id = w.activity_id ∧
        en.status = EnrollStatus.active))

/-- C7.  `cancelEnrollment` performs the withdrawal and the waitlist promotion
as one transaction: every error path returns the original state untouched,
and on success the withdrawn status, timestamp and reason are recorded and no
waitlist entry becomes `promoted` without a matching new active enrollment
row in the same resulting state. -/
theorem cancelEnrollment_atomic (now eid sid : Nat) (reason : Option String)
    (st : DBState)
    (hids : st.waitlist.Pairwise (fun w1 w2 => w1.id ≠ w2.id)) :
    CancelAtomic now eid sid reason st := by
  rw [CancelAtomic]
  cases hfind : findCancelTarget st eid sid with
  | none =>
    left
    constructor
    · simp [cancelEnrollment, hfind]
    · left
      simp [cancelEnrollment, hfind]
  | some e =>
    have hfind' := hfind
    rw [findCancelTarget] at hfind'
    have hmem := List.mem_of_find?_eq_some hfind'
    have hpred := List.find?_some hfind'
    simp only [Bool.and_eq_true, beq_iff_eq] at hpred
    obtain ⟨⟨hid, hstu⟩, hstat⟩ := hpred
    have himg : ({ e with
        status := EnrollStatus.withdrawn,
        cancelled_at := some now,
        cancellation_reason :=
          some (reason.getD defaultCancellationReason) } : Enrollment)
        ∈ (withdrawEnrollment now reason e.id st).enrollments := by
      refine List.mem_map.mpr ⟨e, hmem, ?_⟩
      simp
    cases hsel : selectNextWaiting (withdrawEnrollment now reason e.id st)
        e.activity_id with
    | none =>
      have hcancel : cancelEnrollment now eid sid reason st =
          (CancelOutcome.cancelled none,
            withdrawEnrollment now reason e.id st) := by
        simp [cancelEnrollment, hfind, promoteFromWaitlist, hsel]
      right
      rw [hcancel]
      refine ⟨⟨none, rfl⟩, ⟨e, hmem, hid, hstu, hstat⟩,
        ⟨_, himg, by simpa using hid, rfl, rfl, rfl⟩, ?_⟩
      intro w hw _
      exact Or.inl hw
    | some w =>
      obtain ⟨hwmem, hwact, hwstat, -⟩ := selectNextWaiting_spec hsel
      by_cases hex : enrollmentPairExists (withdrawEnrollment now reason e.id st)
          w.student_id e.activity_id = true
      · left
        constructor
        · simp [cancelEnrollment, hfind, promoteFromWaitlist, hsel, hex]
        · right
          simp [cancelEnrollment, hfind, promoteFromWaitlist, hsel, hex]
      · have hex' : enrollmentPairExists (withdrawEnrollment now reason e.id st)
            w.student_id e.activity_id = false := by simpa using hex
        have hcancel : cancelEnrollment now eid sid reason st =
            (CancelOutcome.cancelled (some w.student_id),
              { withdrawEnrollment now reason e.id st with
                enrollments :=
                  (withdrawEnrollment now reason e.id st).enrollments ++
                    [promotedRow (withdrawEnrollment now reason e.id st) w
                      e.activity_id],
                nextEnrollId :=
                  (withdrawEnrollment now reason e.id st).nextEnrollId + 1,
                waitlist :=
                  (withdrawEnrollment now reason e.id st).waitlist.map
                    (markPromoted now w.id) }) := by
          simp [cancelEnrollment, hfind, promoteFromWaitlist, hsel, hex']
        right
        rw [hcancel]
        refine ⟨⟨some w.student_id, rfl⟩, ⟨e, hmem, hid, hstu, hstat⟩,
          ⟨_, List.mem_append_left _ himg, by simpa using hid, rfl, rfl, rfl⟩,
          ?_⟩
        intro w' hw' _
        obtain ⟨w1, hw1mem, hw1eq⟩ := List.mem_map.mp hw'
        by_cases hidq : w1.id = w.id
        · have hw1 : w1 = w := waitlist_eq_of_id hids hw1mem hwmem hidq
          subst hw1
          right
          refine ⟨promotedRow (withdrawEnrollment now reason e.id st) w1
            e.activity_id, List.mem_append_right _ (by simp), ?_, ?_, rfl⟩
          · rw [← hw1eq]
            simp [markPromoted, promotedRow]
          · rw [← hw1eq]
            simp only [markPromoted, promotedRow]
            rw [if_pos (by simp)]
            exact hwact.symm
        · have hnop : markPromoted now w.id w1 = w1 := by
            rw [markPromoted, if_neg (by simpa using hidq)]
          rw [← hw1eq, hnop]
          exact Or.inl hw1mem

/-- C7 witness state: one active enrollment (student 2) and one waiting entry
(student 3, no history row), so the success path with a real promotion runs. -/
def c7State : DBState := ⟨[actA], [], [c4Active], [c4Wait], [], 3, 2⟩

/-- Witness for C7: the contract at the concrete cancellation that triggers a
promotion. -/
theorem cancelEnrollment_atomic_witness : CancelAtomic 0 2 2 none c7State :=
  cancelEnrollment_atomic 0 2 2 none c7State (by decide)

end ErpEnroll
